import Mathlib

/- Shallow embedding of the UmbrellaCrow612/resizer library.

   Modelled sources:
   - src/src/index.ts : class Resizer, the N-panel mutation-observed resizer
     (setupHandles, onMouseDown/onMouseMove/onMouseUp, onMutation).
   - src/src/index.js : class Resizer, the observer-based two-panel variant
     that preserves flex values across child churn.
   - src/unnamed/part_004 : class ResizerTwo, the static two-panel variant
     with add/remove, option checking and pointer handlers.

   Numeric values are modelled with rationals; DOM elements are modelled by
   records carrying exactly the fields the verified operations read or
   write. -/

namespace Resizer

/-- Drag-session snapshot captured by Resizer.onMouseDown (src/src/index.ts):
the start pointer coordinate along the resize axis, and the two adjacent
panels' flex values and pixel sizes at session start. -/
structure ActiveResize where
  startPos : ℚ
  startPrevFlex : ℚ
  startNextFlex : ℚ
  startPrevSize : ℚ
  startNextSize : ℚ
deriving DecidableEq

/-- Flex pair computed by Resizer.onMouseMove (src/src/index.ts lines
218-256) for the panels immediately before and after the dragged handle.
Mirrors the source: pixel delta from the session start, conversion of the
new pixel sizes to flex units via totalSize and totalFlex, then the two
sequential minimum-flex clamp statements. -/
def moveFlex (minFlex : ℚ) (ar : ActiveResize) (currentPos : ℚ) : ℚ × ℚ :=
  let delta := currentPos - ar.startPos
  let newPrevSize := ar.startPrevSize + delta
  let newNextSize := ar.startNextSize - delta
  let totalFlex := ar.startPrevFlex + ar.startNextFlex
  let totalSize := ar.startPrevSize + ar.startNextSize
  let newPrevFlex := newPrevSize / totalSize * totalFlex
  let newNextFlex := newNextSize / totalSize * totalFlex
  let pn :=
    if newPrevFlex < minFlex then (minFlex, totalFlex - minFlex)
    else (newPrevFlex, newNextFlex)
  if pn.2 < minFlex then (totalFlex - minFlex, minFlex) else pn

/-- Effect of one Resizer.onMouseMove call on the full flex vector: the
source writes style.flex of prevElement (panel i) and nextElement
(panel i + 1) only; every other panel keeps its style. -/
def applyMove (flexes : List ℚ) (i : ℕ) (minFlex : ℚ) (ar : ActiveResize)
    (currentPos : ℚ) : List ℚ :=
  (flexes.set i (moveFlex minFlex ar currentPos).1).set (i + 1)
    (moveFlex minFlex ar currentPos).2

/-- Container child as seen by Resizer.setupHandles: whether it carries the
resizer-handle class, and its style.flex value (none models the empty
string, which is falsy in the source). -/
structure Elem where
  isHandle : Bool
  flex : Option ℚ
deriving DecidableEq

/-- Handle element produced by Resizer.createHandle: it receives the
resizer-handle class and no style.flex. -/
def handleElem : Elem :=
  { isHandle := true, flex := none }

/-- Default-weight assignment of setupHandles (src/src/index.ts lines
129-133): a child whose style.flex is unset receives flex 1; a set value is
kept unchanged. -/
def assignDefaultFlex (c : Elem) : Elem :=
  if c.flex.isNone then { c with flex := some 1 } else c

/-- Interleaving loop of setupHandles (src/src/index.ts lines 135-141): a
fresh handle is inserted immediately before each child except the first. -/
def interleaveHandles : List Elem → List Elem
  | [] => []
  | [c] => [c]
  | c :: c2 :: rest => c :: handleElem :: interleaveHandles (c2 :: rest)

/-- Resizer.setupHandles (src/src/index.ts lines 108-147) as a function from
the container's child list to the new child list and the new tracked-handle
list.  cleanupHandles removes every tracked handle, and every tracked handle
carries the resizer-handle class (createHandle adds it), so cleanup removes
the class-marked children.  With fewer than 2 remaining panels the function
stops after cleanup; otherwise unset flex values are defaulted and one
handle per consecutive panel pair is created and interleaved. -/
def setupHandles (children : List Elem) : List Elem × List Elem :=
  let afterCleanup := children.filter fun c => !c.isHandle
  let panels := afterCleanup.filter fun c => !c.isHandle
  if panels.length < 2 then (afterCleanup, [])
  else
    let panels' := panels.map assignDefaultFlex
    (interleaveHandles panels',
      (List.range (panels.length - 1)).map fun _ => handleElem)

/-- Number of non-handle children of the container. -/
def panelCount (children : List Elem) : ℕ :=
  (children.filter fun c => !c.isHandle).length

/-- Observable actions of setupHandles on the mutation-observed container:
disabling and re-enabling the observer, and removing or inserting handle
elements in the child list. -/
inductive Event where
  | obsDisable : Event
  | obsEnable : Event
  | domRemove : Event
  | domInsert : Event
deriving DecidableEq

/-- True when the event mutates the container's child list. -/
def Event.isDomOp : Event → Bool
  | Event.domRemove => true
  | Event.domInsert => true
  | _ => false

/-- Event trace of one setupHandles run (src/src/index.ts lines 108-147):
observer.disconnect first, then cleanupHandles removes each tracked handle,
then either the early fewer-than-2-panels return (which calls
observer.observe before returning) or the handle insertions followed by
observer.observe. -/
def setupTrace (children : List Elem) : List Event :=
  Event.obsDisable
    :: ((children.filter fun c => c.isHandle).map fun _ => Event.domRemove)
    ++ (if (children.filter fun c => !c.isHandle).length < 2 then
          [Event.obsEnable]
        else
          ((List.range ((children.filter fun c => !c.isHandle).length - 1)).map
            fun _ => Event.domInsert) ++ [Event.obsEnable])

/-- DOM-op segment of the setupHandles trace: the cleanup removals followed
by the handle insertions (empty on the fewer-than-2-panels path). -/
def setupDomOps (children : List Elem) : List Event :=
  ((children.filter fun c => c.isHandle).map fun _ => Event.domRemove)
    ++ (if (children.filter fun c => !c.isHandle).length < 2 then []
        else (List.range ((children.filter fun c => !c.isHandle).length - 1)).map
          fun _ => Event.domInsert)

/-- Mutable state of the Resizer instance and of the document that
Resizer.onMouseUp (src/src/index.ts lines 261-272) can touch. -/
structure RState where
  flexes : List ℚ
  activeResize : Option ActiveResize
  bodyUserSelect : String
  bodyCursor : String
  docMoveListener : Bool
  docUpListener : Bool
deriving DecidableEq

/-- Resizer.onMouseUp: early return when no drag session is active;
otherwise discard the session, restore the document body styles and detach
the two document-level listeners.  Panel flex styles are never touched. -/
def onMouseUp (s : RState) : RState :=
  match s.activeResize with
  | none => s
  | some _ =>
    { s with activeResize := none, bodyUserSelect := "", bodyCursor := "",
             docMoveListener := false, docUpListener := false }

end Resizer

namespace ResizerTwo

/-- Tag string of the horizontal direction. -/
def hTag : String := "horizontal"

/-- Tag string of the vertical direction. -/
def vTag : String := "vertical"

/-- Options as supplied by the caller of the ResizerTwo constructor
(src/unnamed/part_004): none models a missing (undefined) field; some of the
empty string and some 0 model supplied falsy values. -/
structure Options where
  direction : Option String
  minFlex : Option ℚ
deriving DecidableEq

/-- JavaScript x || d for a string-valued option field: undefined and the
empty string are falsy and fall back to the default. -/
def jsOrStr (x : Option String) (d : String) : String :=
  match x with
  | none => d
  | some s => if s = "" then d else s

/-- JavaScript x || d for a number-valued option field: undefined and 0 are
falsy and fall back to the default. -/
def jsOrNum (x : Option ℚ) (d : ℚ) : ℚ :=
  match x with
  | none => d
  | some q => if q = 0 then d else q

/-- Effective options stored by the ResizerTwo constructor (part_004 lines
76-85): every field defaulted with ||, the direction to horizontal and the
minimum flex to 0.3. -/
structure EffOptions where
  direction : String
  minFlex : ℚ
deriving DecidableEq

/-- Defaulting step of the ResizerTwo constructor. -/
def mkEffOptions (o : Options) : EffOptions :=
  { direction := jsOrStr o.direction hTag, minFlex := jsOrNum o.minFlex (3 / 10) }

/-- ResizerTwo.#checkMinFlex (part_004 lines 367-374): throws when the
number is negative or at least 1. -/
def checkMinFlexFails (q : ℚ) : Bool :=
  decide (q < 0) || decide (1 ≤ q)

/-- ResizerTwo.#checkDirection (part_004 lines 380-391): throws when the
value is neither the horizontal nor the vertical tag. -/
def checkDirectionFails (d : String) : Bool :=
  !(d == hTag || d == vTag)

/-- Whether the ResizerTwo constructor throws: it first defaults the
supplied options and then runs checkMinFlex and checkDirection on the
defaulted values. -/
def constructorThrows (o : Options) : Bool :=
  checkMinFlexFails (mkEffOptions o).minFlex
    || checkDirectionFails (mkEffOptions o).direction

/-- Instance state of ResizerTwo (src/unnamed/part_004): the fields written
by add, remove and the pointer handlers.  The callback set is modelled by a
list of callback identifiers. -/
structure RState where
  opts : EffOptions
  isAdded : Bool
  hasParent : Bool
  isResizing : Bool
  flexOne : ℚ
  flexTwo : ℚ
  callbacks : List ℕ
  moveHandlerAttached : Bool
  upHandlerAttached : Bool
  handlePresent : Bool
  childrenPresent : Bool
deriving DecidableEq

/-- mouseMoveHandler (part_004 lines 262-298): guarded on an active resize,
a present parent and both children; computes the pointer's position ratio
inside the container extent, clamps it into [minFlex, 1 - minFlex] (the
handler re-applies the || 0.3 default to the stored minFlex) and writes the
pair (clampedRatio, 1 - clampedRatio) to the two children. -/
def mouseMove (s : RState) (position totalSize : ℚ) : RState :=
  if s.isResizing = false then s
  else if s.hasParent = false then s
  else if s.childrenPresent = false then s
  else
    let frac := position / totalSize
    let minFlex := if s.opts.minFlex = 0 then 3 / 10 else s.opts.minFlex
    let maxFlex := 1 - minFlex
    let clampedFrac := max minFlex (min maxFlex frac)
    { s with flexOne := clampedFrac, flexTwo := 1 - clampedFrac }

/-- mouseUpHandler (part_004 lines 300-302): ends the resize session. -/
def mouseUp (s : RState) : RState :=
  { s with isResizing := false }

/-- ResizerTwo.remove (part_004 lines 130-170): throws when no container has
been added; otherwise detaches both document handlers, removes the handle
element, clears the children's flex styling and the parent's flex styling,
and resets the state, replacing the callback set with a fresh empty set.
The recorded flexOne and flexTwo values are not touched. -/
def remove (s : RState) : Option RState :=
  if s.hasParent = false ∨ s.isAdded = false then none
  else
    some { s with moveHandlerAttached := false, upHandlerAttached := false,
                  handlePresent := false, childrenPresent := false,
                  isResizing := false, hasParent := false,
                  callbacks := [], isAdded := false }

/-- ResizerTwo.getFlexValues (part_004 lines 187-192): returns the two
recorded flex values. -/
def getFlexValues (s : RState) : ℚ × ℚ :=
  (s.flexOne, s.flexTwo)

end ResizerTwo

namespace ResizerJs

/-- Container child element with its style.flex value (none when unset). -/
structure Child where
  flex : Option ℚ
deriving DecidableEq

/-- Instance state of the observer-based two-panel Resizer
(src/src/index.js): the saved flex values that survive child churn, the
references to the two managed children and whether the handle element is
currently inside the container. -/
structure State where
  lastFlexOne : ℚ
  lastFlexTwo : ℚ
  childOne : Option Child
  childTwo : Option Child
  handleAttached : Bool
deriving DecidableEq

/-- parseFloat of style.flex || saved: a set flex parses back to itself, an
unset one falls back to the saved value. -/
def parseFlexOr (f : Option ℚ) (saved : ℚ) : ℚ :=
  match f with
  | none => saved
  | some q => q

/-- Resizer.#try_add_handle (src/src/index.js lines 80-130) as a function of
the state and the current non-handle children.  It returns the new state
and, when the call rewrites the two managed children's styling, those two
children as mutated: the saved flex values applied on attach, the flex
property removed on detach. -/
def tryAddHandle (s : State) (pureChildren : List Child) :
    State × Option (Child × Child) :=
  if pureChildren.length = 2 then
    if s.handleAttached = false then
      match pureChildren with
      | [c1, c2] =>
        ({ s with
            childOne := some { c1 with flex := some s.lastFlexOne },
            childTwo := some { c2 with flex := some s.lastFlexTwo },
            handleAttached := true },
          some ({ c1 with flex := some s.lastFlexOne },
                { c2 with flex := some s.lastFlexTwo }))
      | _ => (s, none)
    else (s, none)
  else
    if s.handleAttached = true then
      match s.childOne, s.childTwo with
      | some c1, some c2 =>
        ({ s with
            lastFlexOne := parseFlexOr c1.flex s.lastFlexOne,
            lastFlexTwo := parseFlexOr c2.flex s.lastFlexTwo,
            childOne := none, childTwo := none,
            handleAttached := false },
          some ({ c1 with flex := none }, { c2 with flex := none }))
      | _, _ => ({ s with handleAttached := false }, none)
    else (s, none)

end ResizerJs

/-- Concrete ResizerTwo state of a freshly added two-panel session: the
constructor defaults (horizontal direction, minFlex 0.3), both flex values
at their default 1, an active resize, both children and the handle present,
and both document handlers attached. -/
def twoPanelSessionState : ResizerTwo.RState :=
  { opts := { direction := ResizerTwo.hTag, minFlex := 3 / 10 },
    isAdded := true, hasParent := true, isResizing := true,
    flexOne := 1, flexTwo := 1, callbacks := [],
    moveHandlerAttached := true, upHandlerAttached := true,
    handlePresent := true, childrenPresent := true }

/-- Empty string value, used to model a supplied falsy direction option. -/
def emptyTag : String := ""

/-- C1 (counterexample): with 3 panels of weights [1, 1, 1], floor 0.1 each
and equal pixel sizes, a drag of handle 0 requesting 1.2 flex units off
panel 1 yields [1.9, 0.1, 1]: panel 1 clamps to 0.1, but the remaining 0.1
of unmet shrink is NOT pulled from panel 2 (which keeps weight 1), and
panel 0 receives the whole pair total minus the floor.  The claimed
downstream walk would yield [2, 0.1, 0.9]. -/
theorem c1_counterexample :
    Resizer.applyMove [1, 1, 1] 0 (1 / 10) ⟨0, 1, 1, 100, 100⟩ 120
        = [19 / 10, 1 / 10, 1] ∧
    Resizer.applyMove [1, 1, 1] 0 (1 / 10) ⟨0, 1, 1, 100, 100⟩ 120
        ≠ [2, 1 / 10, 9 / 10] := by
  constructor
  · norm_num [Resizer.applyMove, Resizer.moveFlex]
  · norm_num [Resizer.applyMove, Resizer.moveFlex]

/-- C1 (amended): a pointer-move touches only the two panels adjacent to the
dragged handle; every other panel keeps its weight, and in the scenario with
3 panels of weights [1, 1, 1] and floor 0.1, the drag requesting 1.2 flex
units off panel 1 clamps panel 1 to 0.1, gives panel 0 the pair remainder
1.9, and leaves panel 2 unchanged at weight 1. -/
theorem c1_amended (flexes : List ℚ) (i j : ℕ) (minFlex : ℚ)
    (ar : Resizer.ActiveResize) (pos : ℚ) (hj1 : j ≠ i) (hj2 : j ≠ i + 1) :
    (Resizer.applyMove flexes i minFlex ar pos)[j]? = flexes[j]? ∧
    Resizer.applyMove [1, 1, 1] 0 (1 / 10) ⟨0, 1, 1, 100, 100⟩ 120
      = [19 / 10, 1 / 10, 1] := by
  constructor
  · unfold Resizer.applyMove
    rw [List.getElem?_set_ne (by omega), List.getElem?_set_ne (by omega)]
  · norm_num [Resizer.applyMove, Resizer.moveFlex]

/-- C1 (witness): the amended claim applied at the concrete 3-panel
scenario, reading back the untouched panel 2. -/
theorem c1_witness :
    (Resizer.applyMove [1, 1, 1] 0 (1 / 10) ⟨0, 1, 1, 100, 100⟩ 120)[2]?
        = ([1, 1, 1] : List ℚ)[2]? ∧
    Resizer.applyMove [1, 1, 1] 0 (1 / 10) ⟨0, 1, 1, 100, 100⟩ 120
        = [19 / 10, 1 / 10, 1] :=
  c1_amended [1, 1, 1] 0 2 (1 / 10) ⟨0, 1, 1, 100, 100⟩ 120
    (by decide) (by decide)

/-- Unfolding of the ResizerTwo pointer-move handler when the resize guards
pass: the pair written is (clampedFrac, 1 - clampedFrac). -/
theorem mouseMove_applied (t : ResizerTwo.RState) (p ts : ℚ)
    (ht : t.isResizing = true) (hp : t.hasParent = true)
    (hc : t.childrenPresent = true) :
    ResizerTwo.mouseMove t p ts
      = { t with
          flexOne := max (if t.opts.minFlex = 0 then 3 / 10 else t.opts.minFlex)
            (min (1 - (if t.opts.minFlex = 0 then 3 / 10 else t.opts.minFlex))
              (p / ts)),
          flexTwo := 1 - max (if t.opts.minFlex = 0 then 3 / 10 else t.opts.minFlex)
            (min (1 - (if t.opts.minFlex = 0 then 3 / 10 else t.opts.minFlex))
              (p / ts)) } := by
  simp [ResizerTwo.mouseMove, ht, hp, hc]

/-- Sum of the pair produced by one onMouseMove equals the pair sum captured
at session start, provided the captured pixel extent is nonzero. -/
theorem moveFlex_sum (minFlex : ℚ) (ar : Resizer.ActiveResize) (pos : ℚ)
    (hsize : ar.startPrevSize + ar.startNextSize ≠ 0) :
    (Resizer.moveFlex minFlex ar pos).1 + (Resizer.moveFlex minFlex ar pos).2
      = ar.startPrevFlex + ar.startNextFlex := by
  simp only [Resizer.moveFlex]
  split_ifs <;> simp
  field_simp
  ring

/-- Sum of a list after writing position i, expressed through the previous
entry at i. -/
theorem sum_set_entry (l : List ℚ) (i : ℕ) (a p : ℚ) (ha : l[i]? = some a) :
    (l.set i p).sum = l.sum - a + p := by
  induction l generalizing i with
  | nil => simp at ha
  | cons c t ih =>
    cases i with
    | zero =>
      simp only [List.getElem?_cons_zero, Option.some_inj] at ha
      subst ha
      simp [List.sum_cons]
      ring
    | succ k =>
      simp only [List.getElem?_cons_succ] at ha
      simp only [List.set_cons_succ, List.sum_cons, ih k ha]
      ring

/-- C2 (amended): conservation holds exactly for the N-panel Resizer: one
onMouseMove preserves the sum of the whole flex vector whenever the session
snapshot matches the vector at the dragged pair and the captured pixel
extent is nonzero.  For ResizerTwo, every applied pointer-move writes a pair
summing to exactly 1 (its normalized total), independent of the sum at
session start. -/
theorem c2_amended (flexes : List ℚ) (i : ℕ) (minFlex : ℚ)
    (ar : Resizer.ActiveResize) (pos : ℚ) (t : ResizerTwo.RState) (p ts : ℚ)
    (hsize : ar.startPrevSize + ar.startNextSize ≠ 0)
    (hi : flexes[i]? = some ar.startPrevFlex)
    (hn : flexes[i + 1]? = some ar.startNextFlex)
    (ht : t.isResizing = true) (hp : t.hasParent = true)
    (hc : t.childrenPresent = true) :
    (Resizer.applyMove flexes i minFlex ar pos).sum = flexes.sum ∧
    (ResizerTwo.mouseMove t p ts).flexOne + (ResizerTwo.mouseMove t p ts).flexTwo
      = 1 := by
  constructor
  · unfold Resizer.applyMove
    rw [sum_set_entry _ (i + 1) ar.startNextFlex _
        (by rw [List.getElem?_set_ne (by omega)]; exact hn),
      sum_set_entry _ i ar.startPrevFlex _ hi]
    have h := moveFlex_sum minFlex ar pos hsize
    linarith
  · rw [mouseMove_applied t p ts ht hp hc]
    ring

/-- C2 (witness): the amended conservation applied to a concrete 3-panel
drag and to the concrete fresh two-panel session. -/
theorem c2_witness :
    (Resizer.applyMove [1, 1, 1] 0 (1 / 10) ⟨0, 1, 1, 100, 100⟩ 120).sum
        = ([1, 1, 1] : List ℚ).sum ∧
    (ResizerTwo.mouseMove twoPanelSessionState 50 100).flexOne
        + (ResizerTwo.mouseMove twoPanelSessionState 50 100).flexTwo = 1 :=
  c2_amended [1, 1, 1] 0 (1 / 10) ⟨0, 1, 1, 100, 100⟩ 120
    twoPanelSessionState 50 100 (by norm_num) rfl rfl rfl rfl rfl

/-- C2 (counterexample): in ResizerTwo a session starting from the default
recorded pair (1, 1), whose sum is 2, yields a pair summing to 1 after the
first pointer-move: the sum at session start is not preserved. -/
theorem c2_counterexample :
    (ResizerTwo.mouseMove twoPanelSessionState 50 100).flexOne
        + (ResizerTwo.mouseMove twoPanelSessionState 50 100).flexTwo = 1 ∧
    twoPanelSessionState.flexOne + twoPanelSessionState.flexTwo = 2 ∧
    (1 : ℚ) ≠ 2 := by
  refine ⟨?_, by norm_num [twoPanelSessionState], by norm_num⟩
  rw [mouseMove_applied twoPanelSessionState 50 100 rfl rfl rfl]
  ring

/-- C3: after every pointer-move both written weights stay at or above the
configured floor, in the N-panel Resizer under the precondition that the sum
of the two affected panels' floors is strictly below their combined flex,
and in ResizerTwo under the precondition that the sum of the two floors is
strictly below the normalized total 1. -/
theorem c3_floor_invariant (minFlex : ℚ) (ar : Resizer.ActiveResize)
    (pos : ℚ) (t : ResizerTwo.RState) (p ts : ℚ)
    (h1 : minFlex + minFlex < ar.startPrevFlex + ar.startNextFlex)
    (h3 : t.opts.minFlex + t.opts.minFlex < 1)
    (ht : t.isResizing = true) (hp : t.hasParent = true)
    (hc : t.childrenPresent = true) :
    (minFlex ≤ (Resizer.moveFlex minFlex ar pos).1 ∧
      minFlex ≤ (Resizer.moveFlex minFlex ar pos).2) ∧
    (t.opts.minFlex ≤ (ResizerTwo.mouseMove t p ts).flexOne ∧
      t.opts.minFlex ≤ (ResizerTwo.mouseMove t p ts).flexTwo) := by
  constructor
  · simp only [Resizer.moveFlex]
    split_ifs with hA hB hC <;> constructor <;> simp <;> linarith
  · rw [mouseMove_applied t p ts ht hp hc]
    by_cases hm : t.opts.minFlex = 0
    · simp only [hm, eq_self_iff_true, if_true]
      have hmin : min (1 - 3 / 10 : ℚ) (p / ts) ≤ 1 - 3 / 10 := min_le_left _ _
      have hle : (3 / 10 : ℚ) ≤ max (3 / 10) (min (1 - 3 / 10) (p / ts)) :=
        le_max_left _ _
      have hub : max (3 / 10 : ℚ) (min (1 - 3 / 10) (p / ts)) ≤ 1 - 3 / 10 :=
        max_le (by norm_num) hmin
      constructor
      · linarith
      · linarith
    · simp only [if_neg hm]
      have hmin : min (1 - t.opts.minFlex) (p / ts) ≤ 1 - t.opts.minFlex :=
        min_le_left _ _
      have hle : t.opts.minFlex
          ≤ max t.opts.minFlex (min (1 - t.opts.minFlex) (p / ts)) :=
        le_max_left _ _
      have hub : max t.opts.minFlex (min (1 - t.opts.minFlex) (p / ts))
          ≤ 1 - t.opts.minFlex :=
        max_le (by linarith) hmin
      constructor
      · exact hle
      · linarith

/-- C3 (witness): the floor invariant applied to the concrete 3-panel drag
with floor 0.1 and to the concrete two-panel session with floor 0.3. -/
theorem c3_witness :
    ((1 / 10 : ℚ) ≤ (Resizer.moveFlex (1 / 10) ⟨0, 1, 1, 100, 100⟩ 120).1 ∧
      (1 / 10 : ℚ) ≤ (Resizer.moveFlex (1 / 10) ⟨0, 1, 1, 100, 100⟩ 120).2) ∧
    ((3 / 10 : ℚ) ≤ (ResizerTwo.mouseMove twoPanelSessionState 50 100).flexOne ∧
      (3 / 10 : ℚ) ≤ (ResizerTwo.mouseMove twoPanelSessionState 50 100).flexTwo) :=
  c3_floor_invariant (1 / 10) ⟨0, 1, 1, 100, 100⟩ 120 twoPanelSessionState
    50 100 (by norm_num) (by norm_num [twoPanelSessionState]) rfl rfl rfl

/-- C4: after every rebuild the number of tracked handles equals
max(panelCount - 1, 0), where panelCount counts the container children that
do not carry the resizer-handle class; with fewer than 2 panels there are
zero handles. -/
theorem c4_handle_count (children : List Resizer.Elem) :
    ((Resizer.setupHandles children).2.length : ℤ)
      = max ((Resizer.panelCount children : ℤ) - 1) 0 := by
  simp only [Resizer.setupHandles, Resizer.panelCount, List.filter_filter]
  have hff : (fun c => !c.isHandle && !c.isHandle) = fun c : Resizer.Elem => !c.isHandle := by
    funext c
    cases c.isHandle <;> rfl
  rw [hff]
  split_ifs with h
  · simp only [List.length_nil]
    omega
  · simp only [List.length_map, List.length_range]
    omega

/-- Panels of the interleaved child list: filtering the handles back out of
the interleaving returns exactly the panel list, as long as no panel itself
carries the handle class. -/
theorem filter_interleaveHandles (l : List Resizer.Elem)
    (h : ∀ c ∈ l, c.isHandle = false) :
    (Resizer.interleaveHandles l).filter (fun c => !c.isHandle) = l := by
  induction l with
  | nil => rfl
  | cons c rest ih =>
    cases rest with
    | nil =>
      simp [Resizer.interleaveHandles, List.filter,
        h c (List.mem_cons_self c [])]
    | cons c2 t =>
      have hc : c.isHandle = false := h c (List.mem_cons_self _ _)
      have hrest : ∀ x ∈ c2 :: t, x.isHandle = false := by
        intro x hx
        exact h x (List.mem_cons_of_mem _ hx)
      show (c :: Resizer.handleElem
          :: Resizer.interleaveHandles (c2 :: t)).filter (fun x => !x.isHandle)
        = c :: c2 :: t
      rw [List.filter_cons_of_pos (by simp [hc]),
        List.filter_cons_of_neg (by simp [Resizer.handleElem]), ih hrest]

/-- Default assignment keeps the handle flag. -/
theorem assignDefaultFlex_isHandle (c : Resizer.Elem) :
    (Resizer.assignDefaultFlex c).isHandle = c.isHandle := by
  unfold Resizer.assignDefaultFlex
  split_ifs <;> rfl

/-- Default assignment of the flex value, as a function of the old value. -/
theorem assignDefaultFlex_flex (c : Resizer.Elem) :
    (Resizer.assignDefaultFlex c).flex
      = if c.flex.isNone then some 1 else c.flex := by
  unfold Resizer.assignDefaultFlex
  split_ifs with h <;> simp [h]

/-- C5 (counterexample): rebuilding a container whose panels have recorded
weights [3, unset] assigns the unset panel the constant default 1, not the
arithmetic mean 3 of the existing recorded weights. -/
theorem c5_counterexample :
    ((Resizer.setupHandles
        [{ isHandle := false, flex := some 3 },
          { isHandle := false, flex := none }]).1.filter
        (fun c => !c.isHandle)).map Resizer.Elem.flex
      = [some 3, some 1] ∧
    some (1 : ℚ) ≠ some (3 : ℚ) := by
  constructor
  · rfl
  · simp

/-- C5 (amended): on a rebuild with at least 2 panels, every panel with no
previously recorded weight is assigned the constant default weight 1
(regardless of the other panels' recorded weights), and every panel with a
recorded weight keeps it. -/
theorem c5_amended (children : List Resizer.Elem)
    (h : 2 ≤ Resizer.panelCount children) :
    ((Resizer.setupHandles children).1.filter
        (fun c => !c.isHandle)).map Resizer.Elem.flex
      = (children.filter (fun c => !c.isHandle)).map
          (fun c => if c.flex.isNone then some 1 else c.flex) := by
  simp only [Resizer.setupHandles, Resizer.panelCount, List.filter_filter] at *
  have hff : (fun c => !c.isHandle && !c.isHandle)
      = fun c : Resizer.Elem => !c.isHandle := by
    funext c
    cases c.isHandle <;> rfl
  rw [hff]
  rw [if_neg (by omega)]
  have hall : ∀ c ∈ (children.filter
      (fun c => !c.isHandle)).map Resizer.assignDefaultFlex,
      c.isHandle = false := by
    intro c hcmem
    obtain ⟨d, hd, rfl⟩ := List.mem_map.mp hcmem
    rw [assignDefaultFlex_isHandle]
    have := List.of_mem_filter hd
    simpa using this
  rw [filter_interleaveHandles _ hall, List.map_map]
  refine List.map_congr_left ?_
  intro c _
  exact assignDefaultFlex_flex c

/-- C5 (witness): the amended default-weight rule applied to the concrete
two-panel container with recorded weights [3, unset]. -/
theorem c5_witness :
    ((Resizer.setupHandles
        [{ isHandle := false, flex := some 3 },
          { isHandle := false, flex := none }]).1.filter
        (fun c => !c.isHandle)).map Resizer.Elem.flex
      = ([{ isHandle := false, flex := some 3 },
          { isHandle := false, flex := none }].filter
          (fun c : Resizer.Elem => !c.isHandle)).map
          (fun c => if c.flex.isNone then some 1 else c.flex) :=
  c5_amended
    [{ isHandle := false, flex := some 3 }, { isHandle := false, flex := none }]
    (by decide)

/-- C6: every setupHandles run brackets its DOM writes in an observer
disable/enable pair: the trace is the disable event, then only child-list
mutations (handle removals and insertions), then the re-enable event, on
both exit paths, including the fewer-than-2-panels early return. -/
theorem c6_observer_bracket (children : List Resizer.Elem) :
    Resizer.setupTrace children
      = Resizer.Event.obsDisable
          :: (Resizer.setupDomOps children ++ [Resizer.Event.obsEnable]) ∧
    (Resizer.setupDomOps children).all Resizer.Event.isDomOp = true := by
  constructor
  · simp only [Resizer.setupTrace, Resizer.setupDomOps]
    split_ifs <;> simp
  · simp only [Resizer.setupDomOps]
    split_ifs <;>
      simp [List.all_eq_true, Resizer.Event.isDomOp]

/-- C7: a pointer-release with no active drag session is a no-op that leaves
the whole state (flex weights included) unchanged, and the release handler
is idempotent, in both the N-panel Resizer and ResizerTwo. -/
theorem c7_release_noop (s : Resizer.RState) (t : ResizerTwo.RState) :
    (s.activeResize = none → Resizer.onMouseUp s = s) ∧
    Resizer.onMouseUp (Resizer.onMouseUp s) = Resizer.onMouseUp s ∧
    (t.isResizing = false → ResizerTwo.mouseUp t = t) ∧
    ResizerTwo.mouseUp (ResizerTwo.mouseUp t) = ResizerTwo.mouseUp t := by
  refine ⟨?_, ?_, ?_, ?_⟩
  · intro h
    unfold Resizer.onMouseUp
    rw [h]
  · cases h : s.activeResize <;> simp [Resizer.onMouseUp, h]
  · intro h
    unfold ResizerTwo.mouseUp
    cases t
    simp_all
  · rfl

/-- C7 (witness): the release no-op applied to a concrete idle Resizer state
and a concrete non-resizing ResizerTwo state. -/
theorem c7_witness :
    Resizer.onMouseUp ⟨[1, 1], none, "", "", false, false⟩
        = (⟨[1, 1], none, "", "", false, false⟩ : Resizer.RState) ∧
    ResizerTwo.mouseUp (ResizerTwo.mouseUp twoPanelSessionState)
        = ResizerTwo.mouseUp twoPanelSessionState :=
  ⟨(c7_release_noop ⟨[1, 1], none, "", "", false, false⟩
      twoPanelSessionState).1 rfl,
    (c7_release_noop ⟨[1, 1], none, "", "", false, false⟩
      twoPanelSessionState).2.2.2⟩

/-- C8 (counterexample): the ResizerTwo constructor does not throw for the
supplied options direction = "" (the empty string) and minFlex = 0.5, even
though the supplied direction is neither of the two recognized values: the
falsy direction is silently defaulted to horizontal before validation. -/
theorem c8_counterexample :
    ResizerTwo.constructorThrows
        { direction := some emptyTag, minFlex := some (1 / 2) } = false ∧
    emptyTag ≠ ResizerTwo.hTag ∧ emptyTag ≠ ResizerTwo.vTag := by
  refine ⟨?_, by decide, by decide⟩
  norm_num [ResizerTwo.constructorThrows, ResizerTwo.mkEffOptions,
    ResizerTwo.jsOrStr, ResizerTwo.jsOrNum, ResizerTwo.checkMinFlexFails,
    ResizerTwo.checkDirectionFails, emptyTag, ResizerTwo.hTag,
    ResizerTwo.vTag]

/-- C8 (amended): the constructor first replaces a falsy direction
(undefined or empty) by horizontal and a falsy minFlex (undefined or 0) by
0.3, and then throws exactly when the defaulted direction is not one of the
two recognized values or the defaulted minFlex is outside 0 <= minFlex < 1;
equivalently, it throws exactly when the caller supplied a truthy invalid
direction or a truthy out-of-range minFlex. -/
theorem c8_amended (o : ResizerTwo.Options) :
    ResizerTwo.constructorThrows o = true ↔
      ((∃ d, o.direction = some d ∧ d ≠ "" ∧ d ≠ ResizerTwo.hTag
          ∧ d ≠ ResizerTwo.vTag) ∨
        (∃ q, o.minFlex = some q ∧ q ≠ 0 ∧ (q < 0 ∨ 1 ≤ q))) := by
  obtain ⟨dir, mf⟩ := o
  simp only [ResizerTwo.constructorThrows, ResizerTwo.mkEffOptions,
    ResizerTwo.jsOrStr, ResizerTwo.jsOrNum, ResizerTwo.checkMinFlexFails,
    ResizerTwo.checkDirectionFails]
  cases dir with
  | none =>
    cases mf with
    | none =>
      norm_num [ResizerTwo.hTag, ResizerTwo.vTag]
      simp
    | some q =>
      by_cases hq : q = 0
      · norm_num [hq, ResizerTwo.hTag, ResizerTwo.vTag]
        simp
      · norm_num [hq, ResizerTwo.hTag, ResizerTwo.vTag]
        simp
  | some d =>
    by_cases hd : d = ""
    · cases mf with
      | none =>
        norm_num [hd, ResizerTwo.hTag, ResizerTwo.vTag]
        simp
      | some q =>
        by_cases hq : q = 0
        · norm_num [hd, hq, ResizerTwo.hTag, ResizerTwo.vTag]
        · norm_num [hd, hq, ResizerTwo.hTag, ResizerTwo.vTag]
    · cases mf with
      | none =>
        norm_num [hd, ResizerTwo.hTag, ResizerTwo.vTag]
        simp
      | some q =>
        by_cases hq : q = 0
        · norm_num [hd, hq, ResizerTwo.hTag, ResizerTwo.vTag]
        · norm_num [hd, hq, ResizerTwo.hTag, ResizerTwo.vTag]
          tauto

/-- C8 (witness): the amended rule instantiated at a truthy out-of-range
minFlex, where the constructor must throw. -/
theorem c8_witness :
    ResizerTwo.constructorThrows
        { direction := some ResizerTwo.vTag, minFlex := some 2 } = true :=
  (c8_amended { direction := some ResizerTwo.vTag, minFlex := some 2 }).mpr
    (Or.inr ⟨2, rfl, by norm_num, Or.inr (by norm_num)⟩)

/-- C9: in the observer-based two-panel variant the flex weights survive
panel churn as a round-trip: when the non-handle child count leaves 2, the
two managed panels' current flex values are saved and their flex styling is
removed, and when the count later returns to 2, exactly the saved values
are applied to the new pair of panels. -/
theorem c9_flex_roundtrip (s : ResizerJs.State)
    (c1 c2 d1 d2 : ResizerJs.Child) (cs : List ResizerJs.Child) (a b : ℚ)
    (hA : s.handleAttached = true) (h1 : s.childOne = some c1)
    (h2 : s.childTwo = some c2) (hf1 : c1.flex = some a)
    (hf2 : c2.flex = some b) (hlen : cs.length ≠ 2) :
    (ResizerJs.tryAddHandle s cs).1.lastFlexOne = a ∧
    (ResizerJs.tryAddHandle s cs).1.lastFlexTwo = b ∧
    (ResizerJs.tryAddHandle s cs).1.handleAttached = false ∧
    (ResizerJs.tryAddHandle s cs).2 = some (⟨none⟩, ⟨none⟩) ∧
    (ResizerJs.tryAddHandle (ResizerJs.tryAddHandle s cs).1 [d1, d2]).2
        = some (⟨some a⟩, ⟨some b⟩) ∧
    (ResizerJs.tryAddHandle (ResizerJs.tryAddHandle s cs).1 [d1, d2]).1.childOne
        = some ⟨some a⟩ ∧
    (ResizerJs.tryAddHandle (ResizerJs.tryAddHandle s cs).1 [d1, d2]).1.childTwo
        = some ⟨some b⟩ := by
  simp [ResizerJs.tryAddHandle, ResizerJs.parseFlexOr, hlen, hA, h1, h2,
    hf1, hf2]

/-- C9 (witness): the round-trip applied to a concrete detach (child count
drops to 0) followed by a concrete re-attach with two fresh styleless
panels. -/
theorem c9_witness :
    (ResizerJs.tryAddHandle ⟨5, 7, some ⟨some 2⟩, some ⟨some 9⟩, true⟩
        []).1.lastFlexOne = 2 ∧
    (ResizerJs.tryAddHandle ⟨5, 7, some ⟨some 2⟩, some ⟨some 9⟩, true⟩
        []).1.lastFlexTwo = 9 ∧
    (ResizerJs.tryAddHandle ⟨5, 7, some ⟨some 2⟩, some ⟨some 9⟩, true⟩
        []).1.handleAttached = false ∧
    (ResizerJs.tryAddHandle ⟨5, 7, some ⟨some 2⟩, some ⟨some 9⟩, true⟩
        []).2 = some (⟨none⟩, ⟨none⟩) ∧
    (ResizerJs.tryAddHandle
        (ResizerJs.tryAddHandle ⟨5, 7, some ⟨some 2⟩, some ⟨some 9⟩, true⟩
          []).1 [⟨none⟩, ⟨none⟩]).2 = some (⟨some 2⟩, ⟨some 9⟩) ∧
    (ResizerJs.tryAddHandle
        (ResizerJs.tryAddHandle ⟨5, 7, some ⟨some 2⟩, some ⟨some 9⟩, true⟩
          []).1 [⟨none⟩, ⟨none⟩]).1.childOne = some ⟨some 2⟩ ∧
    (ResizerJs.tryAddHandle
        (ResizerJs.tryAddHandle ⟨5, 7, some ⟨some 2⟩, some ⟨some 9⟩, true⟩
          []).1 [⟨none⟩, ⟨none⟩]).1.childTwo = some ⟨some 9⟩ :=
  c9_flex_roundtrip ⟨5, 7, some ⟨some 2⟩, some ⟨some 9⟩, true⟩
    ⟨some 2⟩ ⟨some 9⟩ ⟨none⟩ ⟨none⟩ [] 2 9 rfl rfl rfl rfl rfl (by decide)

/-- C10: a successful ResizerTwo.remove empties the registered callback set
but does not reset the recorded flex values: getFlexValues after remove
still returns the values recorded before removal. -/
theorem c10_remove_callbacks (s q : ResizerTwo.RState)
    (h : ResizerTwo.remove s = some q) :
    q.callbacks = [] ∧ ResizerTwo.getFlexValues q = ResizerTwo.getFlexValues s := by
  unfold ResizerTwo.remove at h
  split_ifs at h with hcond
  simp only [Option.some_inj] at h
  subst h
  exact ⟨rfl, rfl⟩

/-- C10 (witness): remove applied to the concrete added session: the
callback set is emptied and getFlexValues still returns the recorded pair
(1, 1). -/
theorem c10_witness :
    (⟨⟨ResizerTwo.hTag, 3 / 10⟩, false, false, false, 1, 1, [], false, false,
        false, false⟩ : ResizerTwo.RState).callbacks = [] ∧
    ResizerTwo.getFlexValues
        ⟨⟨ResizerTwo.hTag, 3 / 10⟩, false, false, false, 1, 1, [], false,
          false, false, false⟩
      = ResizerTwo.getFlexValues twoPanelSessionState :=
  c10_remove_callbacks twoPanelSessionState
    ⟨⟨ResizerTwo.hTag, 3 / 10⟩, false, false, false, 1, 1, [], false, false,
      false, false⟩ rfl

